import Mathlib

/-!
# EZB: connection lifecycle, command framing and liveness supervision

A shallow embedding of `src/EZB.cpp`.  The object `EZB` becomes a record that is
passed explicitly; every member function becomes a function from the record (and
from what the platform answers during the call) to the new record and the call's
outcome (`Outcome`): the call returns a value, throws a C++ exception, or never
returns.  The record given next to the outcome is the object as the call leaves
it.

Conventions of the embedding:

* `unsigned char` values are natural numbers (a byte is a number below 256);
  `int`, `time_t` and the fields of `timespec` are integers, C division is
  `Int.tdiv` (truncation toward zero).
* `m_firmware` is a `double` in the source.  The field holds the exact value of
  that double, a rational number: the conversion of a byte is exact, and the
  division `(double)retval[0] / 10` is the IEEE 754 binary64 division, the exact
  quotient rounded to 53 significant bits, ties to even (`doubleDiv`).
* The record carries a ghost field `trace`: the platform calls issued so far, in
  order (lock, unlock, send, recv, socket, connect, close, usleep,
  pthread_create).
* `m_send_mutex` is the state of the send mutex: 0 when free, 1 when held.  The
  mutex is the non-recursive one `pthread_mutex_init(_, NULL)` makes.  Calls are
  modelled one after the other, none begins while another is in progress, so a
  mutex found held at `pthread_mutex_lock` was left held by a call that has
  ended and is never released: the acquiring call waits for ever
  (`Outcome.blocked`).
* `printf` logging under `m_verbose` has no effect on the object or on the
  transport and is left out; so are the peripheral objects made by
  `CreateObjects` and the socket address structure `m_addr`.
* `EZB.h` is not among the sources: the opcodes `EZB::Ping`, `EZB::Unknown` and
  the interval `KEEP_ALIVE_INTERVAL` are parameters (`Consts`).
-/

/-- Constants declared in the header `EZB.h`, taken as parameters. -/
structure Consts where
  Ping : Nat
  Unknown : Nat
  KEEP_ALIVE_INTERVAL : Int
  deriving DecidableEq

/-- Exceptions the code throws: `std::runtime_error(what)` and the allocation
failure of `new unsigned char[n]` for a negative `n`. -/
inductive Exn where
  | runtime_error (what : String)
  | bad_alloc
  deriving DecidableEq

/-- How a call ends: it returns a value, an exception leaves it, or it never
returns because it waits at `pthread_mutex_lock` for a mutex that stays held. -/
inductive Outcome (α : Type) where
  | returned (a : α)
  | threw (e : Exn)
  | blocked
  deriving DecidableEq

/-- Platform calls made by the code, as recorded in the ghost trace; `lock` is a
completed acquisition of the send mutex. -/
inductive Event where
  | lock
  | unlock
  | send (fd : Int) (frame : List Nat)
  | recv (fd : Int) (len : Int)
  | socket (fd : Int)
  | connect (fd : Int) (addr : Option String)
  | close (fd : Int)
  | usleep (us : Int)
  | pthread_create
  deriving DecidableEq

/-- The C `struct timespec` filled by `clock_gettime`. -/
structure Timespec where
  tv_sec : Int
  tv_nsec : Int
  deriving DecidableEq

/-- What the platform answers during one call of the four-parameter
`SendCommand`: the return value of `send`, the reading of `clock_gettime(1, _)`,
the bytes `recv` copies into the response buffer (none when it fails) and the
return value of `recv`.  The source ignores both return values. -/
structure Wire where
  send_ret : Int
  now : Timespec
  recv_data : List Nat
  recv_ret : Int
  deriving DecidableEq

/-- The fields of the class `EZB` that the connection core uses, plus the ghost
trace of platform calls. -/
structure EZB where
  m_mac_address : Option String
  m_connected : Bool
  m_socket : Int
  m_verbose : Bool
  m_firmware : ℚ
  m_lastcommand_time : Int
  m_exit : Bool
  m_send_mutex : Nat
  trace : List Event
  deriving DecidableEq

/-- The constructor `EZB::EZB()` (lines 4-20); `time_now` is the reading of
`time(NULL)`. -/
def EZB.construct (time_now : Int) : EZB :=
  { m_mac_address := none
    m_connected := false
    m_socket := 0
    m_verbose := true
    m_firmware := -1
    m_lastcommand_time := time_now
    m_exit := false
    m_send_mutex := 0
    trace := [] }

/-- Append one platform call to the ghost trace. -/
def EZB.emit (s : EZB) (e : Event) : EZB :=
  { s with trace := s.trace ++ [e] }

/-- The call `pthread_mutex_lock(&m_send_mutex)`: on a free mutex it acquires
and returns the object with the mutex held; on a held mutex it does not return
(`none`). -/
def EZB.pthread_mutex_lock (s : EZB) : Option EZB :=
  if s.m_send_mutex = 0 then
    some { s with m_send_mutex := s.m_send_mutex + 1, trace := s.trace ++ [Event.lock] }
  else
    none

/-- The call `pthread_mutex_unlock(&m_send_mutex)`. -/
def EZB.pthread_mutex_unlock (s : EZB) : EZB :=
  { s with m_send_mutex := s.m_send_mutex - 1, trace := s.trace ++ [Event.unlock] }

/-- The call `usleep(us)`. -/
def EZB.usleep (s : EZB) (us : Int) : EZB :=
  s.emit (Event.usleep us)

/-- The frame buffer of `SendCommand` (lines 166-170): `1 + num_args` bytes,
byte 0 set to `command`, then for each `i < num_args` byte `i + 1` set to
`args[0]`.  `args[0]` of an empty argument array (undefined in C) reads as 0. -/
def bytestosend (command : Nat) (args : List Nat) (num_args : Nat) : List Nat :=
  (List.range num_args).foldl (fun buf i => buf.set (i + 1) (args.headD 0))
    ((List.replicate (1 + num_args) 0).set 0 command)

/-- The response buffer after `recv(m_socket, retval, n, 0)`: the bytes
delivered (at most the buffer's length) overwrite the front of the buffer, the
remaining positions keep their content. -/
def recvInto (buf : List Nat) (data : List Nat) : List Nat :=
  data.take buf.length ++ buf.drop data.length

/-- The response buffer of `SendCommand` for a positive expected length: `new
unsigned char[n]`, zeroed by `memset`, then filled by `recv`. -/
def retvalBuffer (expected_ret_bytes : Int) (w : Wire) : List Nat :=
  recvInto (List.replicate expected_ret_bytes.toNat 0) w.recv_data

/-- The four-parameter `EZB::SendCommand` (lines 158-216).  `num_args` is a
natural number: a negative count makes the `malloc` and the loop undefined.
The value returned is the response buffer (`none` for the null pointer). -/
def EZB.SendCommand (c : Consts) (s : EZB) (command : Nat) (args : List Nat) (num_args : Nat)
    (expected_ret_bytes : Int) (w : Wire) : EZB × Outcome (Option (List Nat)) :=
  match s.pthread_mutex_lock with
  | none => (s, Outcome.blocked)
  | some s1 =>
    let frame := bytestosend command args num_args
    if command = c.Unknown then
      (s1, Outcome.threw (Exn.runtime_error "Unknown command"))
    else if !s1.m_connected then
      (s1, Outcome.threw (Exn.runtime_error "Not connected"))
    else
      let s2 := s1.emit (Event.send s1.m_socket (frame.take (num_args + 1)))
      let s3 := { s2 with
        m_lastcommand_time := w.now.tv_sec * 1000 + w.now.tv_nsec.tdiv 1000000 }
      if expected_ret_bytes ≠ 0 then
        if expected_ret_bytes < 0 then
          (s3, Outcome.threw Exn.bad_alloc)
        else
          let s4 := s3.emit (Event.recv s3.m_socket expected_ret_bytes)
          (s4.pthread_mutex_unlock, Outcome.returned (some (retvalBuffer expected_ret_bytes w)))
      else
        (s3.pthread_mutex_unlock, Outcome.returned none)

/-- The overload `SendCommand(command)` (line 146). -/
def EZB.SendCommand_cmd (c : Consts) (s : EZB) (command : Nat) (w : Wire) :
    EZB × Outcome Unit :=
  match EZB.SendCommand c s command [] 0 0 w with
  | (s1, Outcome.threw e) => (s1, Outcome.threw e)
  | (s1, Outcome.blocked) => (s1, Outcome.blocked)
  | (s1, Outcome.returned _) => (s1, Outcome.returned ())

/-- The overload `SendCommand(command, args, num_args)` (line 150). -/
def EZB.SendCommand_args (c : Consts) (s : EZB) (command : Nat) (args : List Nat)
    (num_args : Nat) (w : Wire) : EZB × Outcome Unit :=
  match EZB.SendCommand c s command args num_args 0 w with
  | (s1, Outcome.threw e) => (s1, Outcome.threw e)
  | (s1, Outcome.blocked) => (s1, Outcome.blocked)
  | (s1, Outcome.returned _) => (s1, Outcome.returned ())

/-- The overload `SendCommand(command, expected_ret_bytes)` (line 154). -/
def EZB.SendCommand_expect (c : Consts) (s : EZB) (command : Nat) (expected_ret_bytes : Int)
    (w : Wire) : EZB × Outcome (Option (List Nat)) :=
  EZB.SendCommand c s command [] 0 expected_ret_bytes w

/-- The binary exponent search of `floorLog2`, with `fuel` halvings allowed. -/
def floorLog2Aux : Nat → Nat → Nat
  | 0, _ => 0
  | fuel + 1, n => if n < 2 then 0 else floorLog2Aux fuel (n / 2) + 1

/-- The exponent `e` with `2 ^ e ≤ n < 2 ^ (e + 1)`, for `n > 0`. -/
def floorLog2 (n : Nat) : Nat :=
  floorLog2Aux n n

/-- The integer nearest to `num / den`, a tie going to the even one. -/
def roundHalfEven (num den : Nat) : Nat :=
  let q := num / den
  let rem := num % den
  if 2 * rem < den then q
  else if den < 2 * rem then q + 1
  else if q % 2 = 0 then q else q + 1

/-- The IEEE 754 binary64 quotient `(double)a / b` of natural numbers with
`0 < b ≤ a < 2 ^ 53`, as an exact rational: with `2 ^ e ≤ a / b < 2 ^ (e + 1)`,
the quotient is rounded to the nearest multiple of `2 ^ e / 2 ^ 52` (53
significant bits), a tie going to the even multiple. -/
def doubleDiv (a b : Nat) : ℚ :=
  let e := floorLog2 (a / b)
  (roundHalfEven (a * 2 ^ 52) (b * 2 ^ e) : ℚ) * 2 ^ e / 2 ^ 52

/-- The value `KeepAlive` stores in `m_firmware` for the byte `retval[0]`
(lines 230-235): the byte itself when it is at most 15, otherwise the double
`(double)retval[0] / 10`. -/
def firmwareOf (r : Nat) : ℚ :=
  if r ≤ 15 then (r : ℚ) else doubleDiv r 10

/-- The byte `retval[0]` of a response buffer. -/
def retval0 (retval : Option (List Nat)) : Nat :=
  (retval.getD []).headD 0

/-- The member `EZB::KeepAlive` (lines 227-239). -/
def EZB.KeepAlive (c : Consts) (s : EZB) (w : Wire) : EZB × Outcome Bool :=
  match EZB.SendCommand_expect c s c.Ping 1 w with
  | (s1, Outcome.threw e) => (s1, Outcome.threw e)
  | (s1, Outcome.blocked) => (s1, Outcome.blocked)
  | (s1, Outcome.returned retval) =>
    let s2 := { s1 with m_firmware := firmwareOf (retval0 retval) }
    (s2, Outcome.returned (s2.m_firmware != 0))

/-- The member `EZB::IsConnected` (line 124). -/
def EZB.IsConnected (s : EZB) : Bool :=
  s.m_connected

/-- The member `EZB::GetFirmwareVersionRaw` (line 138): the exact value of the
double returned. -/
def EZB.GetFirmwareVersionRaw (s : EZB) : ℚ :=
  s.m_firmware

/-- The member `EZB::Disconnect` (lines 39-46). -/
def EZB.Disconnect (s : EZB) : EZB :=
  if s.m_socket ≠ 0 then
    { s.emit (Event.close s.m_socket) with m_socket := 0 }
  else s

/-- What the platform answers during one call of `Connect`: the descriptor
returned by `socket`, the status returned by `connect`, the text of
`strerror(errno)`, and the transport's answers to the two liveness exchanges. -/
structure ConnectEnv where
  socket_ret : Int
  connect_status : Int
  strerror : String
  ping_wire : Wire
  keepalive_wire : Wire
  deriving DecidableEq

/-- The member `EZB::Connect` (lines 47-107); `none` is a null `mac_address`.
`pthread_mutex_init` leaves the send mutex free. -/
def EZB.Connect (c : Consts) (s : EZB) (mac_address : Option String) (env : ConnectEnv) :
    EZB × Outcome Unit :=
  if s.m_connected then
    (s, Outcome.threw (Exn.runtime_error "Already connected"))
  else
    let s1 := match mac_address with
      | some a => { s with m_mac_address := some a }
      | none => s
    let s2 := { s1.emit (Event.socket env.socket_ret) with m_socket := env.socket_ret }
    let s3 := s2.emit (Event.connect s2.m_socket s2.m_mac_address)
    if env.connect_status < 0 then
      (s3, Outcome.threw (Exn.runtime_error env.strerror))
    else
      let s4 := { s3 with m_send_mutex := 0 }
      let s5 := { s4 with m_connected := true }
      match EZB.SendCommand_cmd c s5 c.Ping env.ping_wire with
      | (s6, Outcome.threw e) => (s6, Outcome.threw e)
      | (s6, Outcome.blocked) => (s6, Outcome.blocked)
      | (s6, Outcome.returned _) =>
        let s7 := s6.usleep 1000000
        match EZB.KeepAlive c s7 env.keepalive_wire with
        | (s8, Outcome.threw e) => (s8, Outcome.threw e)
        | (s8, Outcome.blocked) => (s8, Outcome.blocked)
        | (s8, Outcome.returned alive) =>
          if !alive then
            (s8, Outcome.threw (Exn.runtime_error "Controller not responding"))
          else
            (s8.emit Event.pthread_create, Outcome.returned ())

/-- The supervisor's due-test `m_lastcommand_time + (KEEP_ALIVE_INTERVAL/1000) <=
time(NULL)` (line 245). -/
def EZB.checkDue (c : Consts) (s : EZB) (time_now : Int) : Bool :=
  decide (s.m_lastcommand_time + c.KEEP_ALIVE_INTERVAL.tdiv 1000 ≤ time_now)

/-- What the platform answers on one wake-up of the supervisor: the reading of
`time(NULL)` and the transport's answers should a liveness exchange be made. -/
structure Wake where
  time_now : Int
  wire : Wire
  deriving DecidableEq

/-- The member `EZB::ConnectionCheck` (lines 242-251), run over the wake-ups
listed.  The result is `none` while the loop is still running when the listed
wake-ups are used up, and otherwise how the call ended: the loop was left
(`returned`), an exception left it, or it waits for ever inside `KeepAlive`. -/
def EZB.ConnectionCheck (c : Consts) : EZB → List Wake → EZB × Option (Outcome Unit)
  | s, [] => if s.m_exit then (s, some (Outcome.returned ())) else (s, none)
  | s, wk :: rest =>
    if s.m_exit then (s, some (Outcome.returned ()))
    else if EZB.checkDue c s wk.time_now then
      match EZB.KeepAlive c s wk.wire with
      | (s1, Outcome.threw e) => (s1, some (Outcome.threw e))
      | (s1, Outcome.blocked) => (s1, some Outcome.blocked)
      | (s1, Outcome.returned alive) =>
        if !alive then
          ({ s1 with m_connected := false }, some (Outcome.returned ()))
        else
          EZB.ConnectionCheck c (s1.usleep (c.KEEP_ALIVE_INTERVAL * 1000)) rest
    else
      EZB.ConnectionCheck c (s.usleep (c.KEEP_ALIVE_INTERVAL * 1000)) rest

/-! ## Concrete inputs and derived descriptions -/

/-- The object after the frame write of a `SendCommand` that acquired the send
mutex: mutex held, frame sent, last-activity time stored. -/
def afterWrite (s : EZB) (command : Nat) (args : List Nat) (num_args : Nat) (w : Wire) : EZB :=
  { s with
    m_send_mutex := s.m_send_mutex + 1
    trace := s.trace ++ [Event.lock, Event.send s.m_socket (bytestosend command args num_args)]
    m_lastcommand_time := w.now.tv_sec * 1000 + w.now.tv_nsec.tdiv 1000000 }

/-- The object after a liveness exchange on which the transport delivered the
first byte `r` (0 when it delivered nothing): the four platform calls of the
exchange, the mutex free again, the time of the write, and the firmware derived
from `r`. -/
def afterKeepAlive (c : Consts) (s : EZB) (w : Wire) (r : Nat) : EZB :=
  { s with
    trace := s.trace ++ [Event.lock, Event.send s.m_socket [c.Ping],
      Event.recv s.m_socket 1, Event.unlock]
    m_lastcommand_time := w.now.tv_sec * 1000 + w.now.tv_nsec.tdiv 1000000
    m_firmware := if r ≤ 15 then (r : ℚ) else doubleDiv r 10 }

/-- Sample values for the constants of the absent header, used only to evaluate
the definitions on concrete inputs. -/
def sampleConsts : Consts :=
  { Ping := 85, Unknown := 0, KEEP_ALIVE_INTERVAL := 2000 }

/-- A transport answer delivering the bytes `data` at monotonic time `sec`
seconds, with both calls reporting success. -/
def wireOk (sec : Int) (data : List Nat) : Wire :=
  { send_ret := 1, now := { tv_sec := sec, tv_nsec := 0 }, recv_data := data,
    recv_ret := data.length }

/-- A transport on which both `send` and `recv` fail and nothing is delivered. -/
def wireFail : Wire :=
  { send_ret := -1, now := { tv_sec := 0, tv_nsec := 0 }, recv_data := [], recv_ret := -1 }

/-- A connected object on descriptor 3 with the send mutex free, for concrete
evaluations. -/
def sampleConnected : EZB :=
  { EZB.construct 0 with m_connected := true, m_socket := 3 }

/-- An object on descriptor 3 whose connected flag is clear (as the supervisor
leaves it after a failed liveness check), with the send mutex free. -/
def sampleNotConnected : EZB :=
  { EZB.construct 0 with m_connected := false, m_socket := 3 }

/-- A platform on which the socket opens on descriptor 3, the connection is
accepted, and the peer answers the handshake's liveness exchange with `reply`. -/
def connectEnv (reply : List Nat) : ConnectEnv :=
  { socket_ret := 3, connect_status := 0, strerror := "",
    ping_wire := wireOk 10 [], keepalive_wire := wireOk 11 reply }

/-- A wake-up at wall-clock second `t` on which the peer answers `reply`. -/
def wakeAt (t : Int) (reply : List Nat) : Wake :=
  { time_now := t, wire := wireOk t reply }

/-! ## Helper lemmas -/

theorem set_replicate_append (a : Nat) (k m : Nat) :
    (List.replicate k a ++ 0 :: List.replicate m 0).set k a
      = List.replicate (k + 1) a ++ List.replicate m 0 := by
  induction k with
  | zero => simp
  | succ k ih =>
    simp only [List.replicate_succ, List.cons_append, List.set_cons_succ]
    rw [ih]
    simp [List.replicate_succ]

theorem bytestosend_fold (command a n : Nat) (k : Nat) (hk : k ≤ n) :
    (List.range k).foldl (fun buf i => buf.set (i + 1) a)
        ((List.replicate (1 + n) 0).set 0 command)
      = command :: (List.replicate k a ++ List.replicate (n - k) 0) := by
  induction k with
  | zero =>
    have : 1 + n = n + 1 := by omega
    simp [this, List.replicate_succ]
  | succ k ih =>
    rw [List.range_succ, List.foldl_append, ih (by omega)]
    simp only [List.foldl_cons, List.foldl_nil, List.set_cons_succ]
    have h : n - k = (n - (k + 1)) + 1 := by omega
    rw [h, List.replicate_succ, set_replicate_append]

/-- The frame buffer is the opcode followed by `num_args` copies of `args[0]`. -/
theorem bytestosend_eq (command : Nat) (args : List Nat) (num_args : Nat) :
    bytestosend command args num_args
      = command :: List.replicate num_args (args.headD 0) := by
  unfold bytestosend
  rw [bytestosend_fold command (args.headD 0) num_args num_args (le_refl _)]
  simp

theorem bytestosend_take (command : Nat) (args : List Nat) (num_args : Nat) :
    (bytestosend command args num_args).take (num_args + 1)
      = bytestosend command args num_args := by
  apply List.take_of_length_le
  rw [bytestosend_eq]
  simp

theorem SendCommand_blocked (c : Consts) (s : EZB) (command : Nat) (args : List Nat)
    (num_args : Nat) (n : Int) (w : Wire) (hheld : s.m_send_mutex ≠ 0) :
    EZB.SendCommand c s command args num_args n w = (s, Outcome.blocked) := by
  simp [EZB.SendCommand, EZB.pthread_mutex_lock, hheld]

theorem SendCommand_unknown (c : Consts) (s : EZB) (command : Nat) (args : List Nat)
    (num_args : Nat) (n : Int) (w : Wire) (hfree : s.m_send_mutex = 0)
    (h : command = c.Unknown) :
    EZB.SendCommand c s command args num_args n w
      = ({ s with m_send_mutex := s.m_send_mutex + 1, trace := s.trace ++ [Event.lock] },
          Outcome.threw (Exn.runtime_error "Unknown command")) := by
  simp [EZB.SendCommand, EZB.pthread_mutex_lock, hfree, h]

theorem SendCommand_not_connected (c : Consts) (s : EZB) (command : Nat) (args : List Nat)
    (num_args : Nat) (n : Int) (w : Wire) (hfree : s.m_send_mutex = 0)
    (h : command ≠ c.Unknown) (hc : s.m_connected = false) :
    EZB.SendCommand c s command args num_args n w
      = ({ s with m_send_mutex := s.m_send_mutex + 1, trace := s.trace ++ [Event.lock] },
          Outcome.threw (Exn.runtime_error "Not connected")) := by
  simp [EZB.SendCommand, EZB.pthread_mutex_lock, hfree, h, hc]

theorem SendCommand_zero (c : Consts) (s : EZB) (command : Nat) (args : List Nat)
    (num_args : Nat) (w : Wire) (hfree : s.m_send_mutex = 0) (h : command ≠ c.Unknown)
    (hc : s.m_connected = true) :
    EZB.SendCommand c s command args num_args 0 w
      = ((afterWrite s command args num_args w).pthread_mutex_unlock, Outcome.returned none) := by
  simp [EZB.SendCommand, EZB.pthread_mutex_lock, hfree, h, hc, EZB.emit, afterWrite,
    bytestosend_take]

theorem SendCommand_pos (c : Consts) (s : EZB) (command : Nat) (args : List Nat)
    (num_args : Nat) (n : Int) (w : Wire) (hfree : s.m_send_mutex = 0)
    (h : command ≠ c.Unknown) (hc : s.m_connected = true) (hn : 0 < n) :
    EZB.SendCommand c s command args num_args n w
      = ((EZB.emit (afterWrite s command args num_args w)
            (Event.recv s.m_socket n)).pthread_mutex_unlock,
          Outcome.returned (some (retvalBuffer n w))) := by
  have h1 : n ≠ 0 := by omega
  have h2 : ¬ n < 0 := by omega
  simp [EZB.SendCommand, EZB.pthread_mutex_lock, hfree, h, hc, EZB.emit, afterWrite,
    bytestosend_take, h1, h2]

theorem SendCommand_neg (c : Consts) (s : EZB) (command : Nat) (args : List Nat)
    (num_args : Nat) (n : Int) (w : Wire) (hfree : s.m_send_mutex = 0)
    (h : command ≠ c.Unknown) (hc : s.m_connected = true) (hn : n < 0) :
    EZB.SendCommand c s command args num_args n w
      = (afterWrite s command args num_args w, Outcome.threw Exn.bad_alloc) := by
  have h1 : n ≠ 0 := by omega
  simp [EZB.SendCommand, EZB.pthread_mutex_lock, hfree, h, hc, EZB.emit, afterWrite,
    bytestosend_take, h1, hn]

/-- The byte `retval[0]` of a one-byte response buffer is the first byte the
transport delivered, or the zero left by `memset` when it delivered nothing. -/
theorem retval0_retvalBuffer (w : Wire) :
    retval0 (some (retvalBuffer 1 w)) = w.recv_data.headD 0 := by
  unfold retval0 retvalBuffer recvInto
  cases h : w.recv_data with
  | nil => simp
  | cons a t => simp

theorem headD_of_delivered (w : Wire) (r : Nat)
    (hr : w.recv_data = [] ∧ r = 0 ∨ ∃ tail, w.recv_data = r :: tail) :
    w.recv_data.headD 0 = r := by
  rcases hr with ⟨h1, h2⟩ | ⟨tail, h⟩
  · rw [h1, h2]; rfl
  · rw [h]; rfl

theorem KeepAlive_free (c : Consts) (s : EZB) (w : Wire) (r : Nat)
    (hp : c.Ping ≠ c.Unknown) (hc : s.m_connected = true) (hfree : s.m_send_mutex = 0)
    (hr : w.recv_data = [] ∧ r = 0 ∨ ∃ tail, w.recv_data = r :: tail) :
    EZB.KeepAlive c s w
      = (afterKeepAlive c s w r, Outcome.returned (firmwareOf r != 0)) := by
  unfold EZB.KeepAlive EZB.SendCommand_expect
  rw [SendCommand_pos c s c.Ping [] 0 1 w hfree hp hc (by decide)]
  simp only [retval0_retvalBuffer, headD_of_delivered w r hr]
  simp [afterKeepAlive, afterWrite, EZB.emit, EZB.pthread_mutex_unlock, bytestosend_eq,
    firmwareOf, hfree]

theorem floorLog2Aux_spec (fuel : Nat) : ∀ n : Nat, 0 < n → n ≤ fuel →
    2 ^ floorLog2Aux fuel n ≤ n ∧ n < 2 ^ (floorLog2Aux fuel n + 1) := by
  induction fuel with
  | zero => intro n h0 h1; omega
  | succ fuel ih =>
    intro n h0 h1
    unfold floorLog2Aux
    by_cases h2 : n < 2
    · simp only [h2, if_true]
      constructor <;> simp <;> omega
    · simp only [h2, if_false]
      have h3 := ih (n / 2) (by omega) (by omega)
      rw [pow_succ, pow_succ]
      rw [pow_succ] at h3
      constructor <;> omega

theorem floorLog2_spec (n : Nat) (h : 0 < n) :
    2 ^ floorLog2 n ≤ n ∧ n < 2 ^ (floorLog2 n + 1) :=
  floorLog2Aux_spec n n h (le_refl n)

/-- The rounding step of `doubleDiv`: the integer chosen is the quotient or its
successor, at distance at most one half from `num / den`. -/
theorem roundHalfEven_spec (num den : Nat) (hden : 0 < den) :
    (roundHalfEven num den = num / den ∧ 2 * (num % den) ≤ den ∨
      roundHalfEven num den = num / den + 1 ∧ den ≤ 2 * (num % den)) ∧
    num = den * (num / den) + num % den ∧ num % den < den := by
  have h1 : num = den * (num / den) + num % den := (Nat.div_add_mod num den).symm
  have h2 : num % den < den := Nat.mod_lt _ hden
  refine ⟨?_, h1, h2⟩
  unfold roundHalfEven
  by_cases c1 : 2 * (num % den) < den
  · left; simp only [c1, if_true]; exact ⟨trivial, by omega⟩
  · by_cases c2 : den < 2 * (num % den)
    · right; simp only [c1, c2, if_true, if_false]; exact ⟨trivial, by omega⟩
    · by_cases c3 : num / den % 2 = 0
      · left; simp only [c1, c2, c3, if_true, if_false]; exact ⟨trivial, by omega⟩
      · right; simp only [c1, c2, c3, if_false]; exact ⟨trivial, by omega⟩

/-- The value of `doubleDiv a b` is a binary64 number next to `a / b`: a multiple
`n * 2 ^ e / 2 ^ 52` with `2 ^ 52 ≤ n ≤ 2 ^ 53`, where `2 ^ e ≤ a / b < 2 ^ (e + 1)`,
at distance at most half a unit `2 ^ e / 2 ^ 52` from the exact quotient; it is
the exact quotient only when the division `a * 2 ^ 52 / (b * 2 ^ e)` leaves no
remainder. -/
theorem doubleDiv_spec (a b : Nat) (hb : 0 < b) (hab : b ≤ a) :
    ∃ n e : Nat, e = floorLog2 (a / b) ∧ 2 ^ 52 ≤ n ∧ n ≤ 2 ^ 53 ∧
      (2 : ℚ) ^ e ≤ (a : ℚ) / b ∧ (a : ℚ) / b < 2 ^ (e + 1) ∧
      doubleDiv a b = (n : ℚ) * 2 ^ e / 2 ^ 52 ∧
      |doubleDiv a b - (a : ℚ) / b| ≤ 2 ^ e / 2 ^ 53 ∧
      (doubleDiv a b = (a : ℚ) / b ↔ (a * 2 ^ 52) % (b * 2 ^ e) = 0) := by
  have hk : 0 < a / b := Nat.div_pos hab hb
  obtain ⟨he1, he2⟩ := floorLog2_spec (a / b) hk
  have hden : 0 < b * 2 ^ floorLog2 (a / b) := Nat.mul_pos hb (pow_pos (by decide) _)
  obtain ⟨hn, hnum, hrem⟩ := roundHalfEven_spec (a * 2 ^ 52) (b * 2 ^ floorLog2 (a / b)) hden
  have ha1 : b * 2 ^ floorLog2 (a / b) ≤ a :=
    le_trans (Nat.mul_le_mul_left b he1) (Nat.mul_div_le a b)
  have ha2 : a < b * 2 ^ (floorLog2 (a / b) + 1) := by
    have h1 : a < b * (a / b + 1) := Nat.lt_mul_div_succ a hb
    exact lt_of_lt_of_le h1 (Nat.mul_le_mul_left b he2)
  have hq1 : 2 ^ 52 ≤ a * 2 ^ 52 / (b * 2 ^ floorLog2 (a / b)) := by
    rw [Nat.le_div_iff_mul_le hden]
    calc 2 ^ 52 * (b * 2 ^ floorLog2 (a / b)) = (b * 2 ^ floorLog2 (a / b)) * 2 ^ 52 := by ring
      _ ≤ a * 2 ^ 52 := Nat.mul_le_mul_right _ ha1
  have hq2 : a * 2 ^ 52 / (b * 2 ^ floorLog2 (a / b)) < 2 ^ 53 := by
    rw [Nat.div_lt_iff_lt_mul hden]
    calc a * 2 ^ 52 < (b * 2 ^ (floorLog2 (a / b) + 1)) * 2 ^ 52 :=
          Nat.mul_lt_mul_of_pos_right ha2 (pow_pos (by decide) _)
      _ = 2 ^ 53 * (b * 2 ^ floorLog2 (a / b)) := by ring
  have hB : (0 : ℚ) < (b : ℚ) := by exact_mod_cast hb
  have hE : (0 : ℚ) < (2 : ℚ) ^ floorLog2 (a / b) := pow_pos (by norm_num) _
  have hA : (a : ℚ) * 2 ^ 52
      = (b : ℚ) * 2 ^ floorLog2 (a / b) * ((a * 2 ^ 52 / (b * 2 ^ floorLog2 (a / b)) : Nat) : ℚ)
        + (((a * 2 ^ 52) % (b * 2 ^ floorLog2 (a / b)) : Nat) : ℚ) := by
    exact_mod_cast hnum
  have hR : ((((a * 2 ^ 52) % (b * 2 ^ floorLog2 (a / b)) : Nat) : ℚ))
      < (b : ℚ) * 2 ^ floorLog2 (a / b) := by
    exact_mod_cast hrem
  have hR0 : (0 : ℚ) ≤ (((a * 2 ^ 52) % (b * 2 ^ floorLog2 (a / b)) : Nat) : ℚ) :=
    Nat.cast_nonneg _
  refine ⟨roundHalfEven (a * 2 ^ 52) (b * 2 ^ floorLog2 (a / b)), floorLog2 (a / b),
    rfl, ?_, ?_, ?_, ?_, rfl, ?_, ?_⟩
  · rcases hn with ⟨h, _⟩ | ⟨h, _⟩ <;> rw [h] <;> omega
  · rcases hn with ⟨h, _⟩ | ⟨h, _⟩ <;> rw [h] <;> omega
  · rw [le_div_iff₀ hB]
    have : ((b * 2 ^ floorLog2 (a / b) : Nat) : ℚ) ≤ (a : ℚ) := by exact_mod_cast ha1
    push_cast at this
    linarith
  · rw [div_lt_iff₀ hB]
    have : ((a : Nat) : ℚ) < ((b * 2 ^ (floorLog2 (a / b) + 1) : Nat) : ℚ) := by
      exact_mod_cast ha2
    push_cast at this
    linarith
  · have hdiff : doubleDiv a b - (a : ℚ) / b
        = ((roundHalfEven (a * 2 ^ 52) (b * 2 ^ floorLog2 (a / b)) : ℚ)
              * ((b : ℚ) * 2 ^ floorLog2 (a / b)) - (a : ℚ) * 2 ^ 52) / ((b : ℚ) * 2 ^ 52) := by
      unfold doubleDiv
      field_simp
      ring
    rw [hdiff, abs_div, abs_of_pos (by positivity : (0 : ℚ) < (b : ℚ) * 2 ^ 52),
      div_le_div_iff₀ (by positivity) (by positivity)]
    have hX : |(roundHalfEven (a * 2 ^ 52) (b * 2 ^ floorLog2 (a / b)) : ℚ)
          * ((b : ℚ) * 2 ^ floorLog2 (a / b)) - (a : ℚ) * 2 ^ 52| * 2
        ≤ (b : ℚ) * 2 ^ floorLog2 (a / b) := by
      rcases hn with ⟨h, h2⟩ | ⟨h, h2⟩
      · have h2q : (2 : ℚ) * (((a * 2 ^ 52) % (b * 2 ^ floorLog2 (a / b)) : Nat) : ℚ)
            ≤ (b : ℚ) * 2 ^ floorLog2 (a / b) := by exact_mod_cast h2
        rw [h, hA, abs_sub_comm, abs_of_nonneg (by linarith)]
        linarith
      · have h2q : (b : ℚ) * 2 ^ floorLog2 (a / b)
            ≤ (2 : ℚ) * (((a * 2 ^ 52) % (b * 2 ^ floorLog2 (a / b)) : Nat) : ℚ) := by
          exact_mod_cast h2
        rw [h, hA]
        push_cast
        rw [abs_of_nonneg (by linarith)]
        linarith
    calc _ = (|(roundHalfEven (a * 2 ^ 52) (b * 2 ^ floorLog2 (a / b)) : ℚ)
          * ((b : ℚ) * 2 ^ floorLog2 (a / b)) - (a : ℚ) * 2 ^ 52| * 2) * 2 ^ 52 := by ring
      _ ≤ ((b : ℚ) * 2 ^ floorLog2 (a / b)) * 2 ^ 52 :=
          mul_le_mul_of_nonneg_right hX (by positivity)
      _ = _ := by ring
  · have hiff : doubleDiv a b = (a : ℚ) / b
        ↔ (roundHalfEven (a * 2 ^ 52) (b * 2 ^ floorLog2 (a / b)) : ℚ)
              * ((b : ℚ) * 2 ^ floorLog2 (a / b)) = (a : ℚ) * 2 ^ 52 := by
      unfold doubleDiv
      rw [div_eq_div_iff (by positivity) (ne_of_gt hB)]
      constructor <;> intro h <;> linarith
    rw [hiff]
    constructor
    · intro h
      rcases hn with ⟨h1, _⟩ | ⟨h1, _⟩
      · rw [h1, hA] at h
        have : (((a * 2 ^ 52) % (b * 2 ^ floorLog2 (a / b)) : Nat) : ℚ) = 0 := by linarith
        exact_mod_cast this
      · rw [h1, hA] at h
        push_cast at h
        exfalso
        linarith
    · intro h
      rcases hn with ⟨h1, _⟩ | ⟨h1, h2⟩
      · rw [h1, hA, h]
        push_cast
        ring
      · omega

theorem doubleDiv_pos (a b : Nat) (hb : 0 < b) (hab : b ≤ a) : 0 < doubleDiv a b := by
  obtain ⟨n, e, _, hn, _, _, _, hd, _, _⟩ := doubleDiv_spec a b hb hab
  rw [hd]
  have : (0 : ℚ) < (n : ℚ) := by
    have : 0 < n := lt_of_lt_of_le (by decide) hn
    exact_mod_cast this
  positivity

/-- The stored firmware value is zero exactly for the byte 0. -/
theorem firmwareOf_eq_zero (r : Nat) : firmwareOf r = 0 ↔ r = 0 := by
  unfold firmwareOf
  split
  · exact_mod_cast Iff.rfl
  · rename_i h
    have hpos := doubleDiv_pos r 10 (by decide) (by omega)
    constructor
    · intro h0
      rw [h0] at hpos
      exact absurd hpos (lt_irrefl _)
    · intro h0
      omega

set_option maxRecDepth 100000 in
/-- For a byte above 15 the division by ten leaves no remainder at the
precision of a double exactly when the byte is a multiple of 5. -/
theorem byte_remainder_iff : ∀ r < 256, 15 < r →
    ((r * 2 ^ 52) % (10 * 2 ^ floorLog2 (r / 10)) = 0 ↔ 5 ∣ r) := by
  decide

theorem tdiv_thousand_lt (k : Int) : k < (k.tdiv 1000 + 1) * 1000 := by
  have h1 := Int.tdiv_add_tmod k 1000
  have h2 : k.tmod 1000 < 1000 := Int.tmod_lt_of_pos k (by decide)
  omega

theorem delivered_headD (w : Wire) :
    w.recv_data = [] ∧ w.recv_data.headD 0 = 0 ∨
      ∃ tail, w.recv_data = w.recv_data.headD 0 :: tail := by
  cases h : w.recv_data with
  | nil => left; exact ⟨rfl, rfl⟩
  | cons a t => right; exact ⟨t, rfl⟩

/-- With the send mutex free at entry, a `SendCommand` with the Unknown opcode or
on an object that is not connected throws, makes no platform call but the lock
acquisition, and leaves the last-activity time as it was. -/
theorem SendCommand_rejects_lock_free (c : Consts) (s : EZB) (command : Nat) (args : List Nat)
    (num_args : Nat) (n : Int) (w : Wire) (hfree : s.m_send_mutex = 0)
    (h : command = c.Unknown ∨ s.m_connected = false) :
    (EZB.SendCommand c s command args num_args n w).2
        = Outcome.threw (Exn.runtime_error
            (if command = c.Unknown then "Unknown command" else "Not connected")) ∧
    (EZB.SendCommand c s command args num_args n w).1.trace = s.trace ++ [Event.lock] ∧
    (EZB.SendCommand c s command args num_args n w).1.m_lastcommand_time
        = s.m_lastcommand_time := by
  by_cases hu : command = c.Unknown
  · rw [SendCommand_unknown c s command args num_args n w hfree hu]
    simp [hu]
  · have hc : s.m_connected = false := by
      rcases h with h | h
      · exact absurd h hu
      · exact h
    rw [SendCommand_not_connected c s command args num_args n w hfree hu hc]
    simp [hu]

/-- The handshake of `Connect` (lines 92-104) from a connected object with the
send mutex free: when it ends normally the flag is still set, the mutex is free
and the liveness opcode is not the Unknown sentinel. -/
theorem Connect_handshake (c : Consts) (s5 : EZB) (env : ConnectEnv)
    (h5c : s5.m_connected = true) (h5m : s5.m_send_mutex = 0)
    (h : (match EZB.SendCommand_cmd c s5 c.Ping env.ping_wire with
          | (s6, Outcome.threw e) => (s6, Outcome.threw e)
          | (s6, Outcome.blocked) => (s6, Outcome.blocked)
          | (s6, Outcome.returned _) =>
            match EZB.KeepAlive c (s6.usleep 1000000) env.keepalive_wire with
            | (s8, Outcome.threw e) => (s8, Outcome.threw e)
            | (s8, Outcome.blocked) => (s8, Outcome.blocked)
            | (s8, Outcome.returned alive) =>
              if !alive then
                (s8, Outcome.threw (Exn.runtime_error "Controller not responding"))
              else
                (s8.emit Event.pthread_create, Outcome.returned ())).2 = Outcome.returned ()) :
    (match EZB.SendCommand_cmd c s5 c.Ping env.ping_wire with
          | (s6, Outcome.threw e) => (s6, Outcome.threw e)
          | (s6, Outcome.blocked) => (s6, Outcome.blocked)
          | (s6, Outcome.returned _) =>
            match EZB.KeepAlive c (s6.usleep 1000000) env.keepalive_wire with
            | (s8, Outcome.threw e) => (s8, Outcome.threw e)
            | (s8, Outcome.blocked) => (s8, Outcome.blocked)
            | (s8, Outcome.returned alive) =>
              if !alive then
                (s8, Outcome.threw (Exn.runtime_error "Controller not responding"))
              else
                (s8.emit Event.pthread_create, Outcome.returned ())).1.m_connected = true ∧
    (match EZB.SendCommand_cmd c s5 c.Ping env.ping_wire with
          | (s6, Outcome.threw e) => (s6, Outcome.threw e)
          | (s6, Outcome.blocked) => (s6, Outcome.blocked)
          | (s6, Outcome.returned _) =>
            match EZB.KeepAlive c (s6.usleep 1000000) env.keepalive_wire with
            | (s8, Outcome.threw e) => (s8, Outcome.threw e)
            | (s8, Outcome.blocked) => (s8, Outcome.blocked)
            | (s8, Outcome.returned alive) =>
              if !alive then
                (s8, Outcome.threw (Exn.runtime_error "Controller not responding"))
              else
                (s8.emit Event.pthread_create, Outcome.returned ())).1.m_send_mutex = 0 ∧
    c.Ping ≠ c.Unknown := by
  by_cases hp : c.Ping = c.Unknown
  · exfalso
    simp [EZB.SendCommand_cmd, SendCommand_unknown c s5 c.Ping [] 0 0 env.ping_wire h5m hp] at h
  · have hsend := SendCommand_zero c s5 c.Ping [] 0 env.ping_wire h5m hp h5c
    have h7c : ((afterWrite s5 c.Ping [] 0 env.ping_wire).pthread_mutex_unlock.usleep
        1000000).m_connected = true := by
      simp [afterWrite, EZB.pthread_mutex_unlock, EZB.usleep, EZB.emit, h5c]
    have h7m : ((afterWrite s5 c.Ping [] 0 env.ping_wire).pthread_mutex_unlock.usleep
        1000000).m_send_mutex = 0 := by
      simp [afterWrite, EZB.pthread_mutex_unlock, EZB.usleep, EZB.emit, h5m]
    have hka := KeepAlive_free c _ env.keepalive_wire _ hp h7c h7m
      (delivered_headD env.keepalive_wire)
    simp only [EZB.SendCommand_cmd, hsend, hka] at h ⊢
    split at h
    · simp at h
    · rename_i hal
      simp only [hal]
      refine ⟨?_, ?_, hp⟩
      · simp [EZB.emit, afterKeepAlive, h7c]
      · simp [EZB.emit, afterKeepAlive, h7m]

/-- A `Connect` that returns normally leaves the connected flag set and the send
mutex free, and can only do so when the liveness opcode is not the Unknown
sentinel: the object the supervisor is started on is connected. -/
theorem Connect_ok_connected (c : Consts) (s : EZB) (mac_address : Option String)
    (env : ConnectEnv) (h : (EZB.Connect c s mac_address env).2 = Outcome.returned ()) :
    (EZB.Connect c s mac_address env).1.m_connected = true ∧
    (EZB.Connect c s mac_address env).1.m_send_mutex = 0 ∧ c.Ping ≠ c.Unknown := by
  unfold EZB.Connect at h ⊢
  cases hc : s.m_connected with
  | true => simp [hc] at h
  | false =>
    simp only [hc] at h ⊢
    by_cases hst : env.connect_status < 0
    · simp [hst] at h
    · simp only [Bool.false_eq_true, if_false, hst] at h ⊢
      exact Connect_handshake c _ env rfl rfl h

/-! ## Claims -/

/-- C1 (defect in the code): the claim asks that byte `i + 1` of the frame be
`args[i]`.  The loop of `SendCommand` stores `args[0]` at every position: with
opcode 85 and arguments `[1, 2]` the frame written on a connected channel is
`[85, 1, 1]`, whose byte 2 is 1 and not `args[1] = 2`. -/
theorem C1_frame_repeats_first_argument :
    bytestosend 85 [1, 2] 2 = [85, 1, 1] ∧
    (EZB.SendCommand sampleConsts sampleConnected 85 [1, 2] 2 0 (wireOk 0 [])).1.trace
      = [Event.lock, Event.send 3 [85, 1, 1], Event.unlock] ∧
    (EZB.SendCommand sampleConsts sampleConnected 85 [1, 2] 2 0 (wireOk 0 [])).2
      = Outcome.returned none ∧
    ([85, 1, 1] : List Nat)[2]? ≠ ([1, 2] : List Nat)[1]? := by
  refine ⟨by decide, ?_, ?_, by decide⟩
  · rw [SendCommand_zero _ _ _ _ _ _ rfl (by decide) rfl]
    simp [afterWrite, EZB.pthread_mutex_unlock, bytestosend_eq, sampleConnected, EZB.construct]
  · rw [SendCommand_zero _ _ _ _ _ _ rfl (by decide) rfl]

/-- C2 fails as stated: for the response byte 33 the claim has `KeepAlive` store
exactly 33 / 10.  The code stores the double `(double)33 / 10`, whose value is
7430939385161318 / 2 ^ 51 (3.2999999999999998...), not 33 / 10. -/
theorem C2_byte_33_not_stored_exactly :
    (EZB.KeepAlive sampleConsts sampleConnected (wireOk 0 [33])).1.GetFirmwareVersionRaw
      = 7430939385161318 / 2251799813685248 ∧
    (EZB.KeepAlive sampleConsts sampleConnected (wireOk 0 [33])).1.GetFirmwareVersionRaw
      ≠ (33 : ℚ) / 10 := by
  have h : (EZB.KeepAlive sampleConsts sampleConnected (wireOk 0 [33])).1.GetFirmwareVersionRaw
      = 7430939385161318 / 2251799813685248 := by
    rw [KeepAlive_free sampleConsts sampleConnected (wireOk 0 [33]) 33 (by decide) rfl rfl
      (Or.inr ⟨[], rfl⟩)]
    norm_num [EZB.GetFirmwareVersionRaw, afterKeepAlive, doubleDiv, roundHalfEven, floorLog2,
      floorLog2Aux]
  refine ⟨h, ?_⟩
  rw [h]
  norm_num

/-- C2 as amended: on a connected channel whose liveness exchange takes place,
when the transport delivers the response byte `r ≤ 255` (0 when it delivers
nothing), `KeepAlive` stores `r` itself if `r ≤ 15`; if `r > 15` it stores the
double nearest to `r / 10`, a number `n * 2 ^ e / 2 ^ 52` with 53 significant
bits in the binade of `r / 10`, at most half a unit in the last place from
`r / 10`, and equal to `r / 10` only when `r` is a multiple of 5; it returns
`false` exactly when `r = 0`. -/
theorem C2_KeepAlive_firmware_double (c : Consts) (s : EZB) (w : Wire) (r : Nat)
    (hp : c.Ping ≠ c.Unknown) (hc : s.m_connected = true) (hfree : s.m_send_mutex = 0)
    (hr : w.recv_data = [] ∧ r = 0 ∨ ∃ tail, w.recv_data = r :: tail) (hbyte : r ≤ 255) :
    (r ≤ 15 → (EZB.KeepAlive c s w).1.GetFirmwareVersionRaw = (r : ℚ)) ∧
    (15 < r → ∃ n e : Nat, 2 ^ 52 ≤ n ∧ n ≤ 2 ^ 53 ∧
        (2 : ℚ) ^ e ≤ (r : ℚ) / 10 ∧ (r : ℚ) / 10 < 2 ^ (e + 1) ∧
        (EZB.KeepAlive c s w).1.GetFirmwareVersionRaw = (n : ℚ) * 2 ^ e / 2 ^ 52 ∧
        |(EZB.KeepAlive c s w).1.GetFirmwareVersionRaw - (r : ℚ) / 10| ≤ 2 ^ e / 2 ^ 53 ∧
        ((EZB.KeepAlive c s w).1.GetFirmwareVersionRaw = (r : ℚ) / 10 ↔ 5 ∣ r)) ∧
    ∃ b : Bool, (EZB.KeepAlive c s w).2 = Outcome.returned b ∧ (b = false ↔ r = 0) := by
  rw [KeepAlive_free c s w r hp hc hfree hr]
  refine ⟨?_, ?_, _, rfl, ?_⟩
  · intro h
    simp [EZB.GetFirmwareVersionRaw, afterKeepAlive, h]
  · intro h
    have hnot : ¬ r ≤ 15 := by omega
    obtain ⟨n, e, he, h1, h2, h3, h4, h5, h6, h7⟩ := doubleDiv_spec r 10 (by decide) (by omega)
    refine ⟨n, e, h1, h2, ?_, ?_, ?_, ?_, ?_⟩
    · exact_mod_cast h3
    · exact_mod_cast h4
    · simpa [EZB.GetFirmwareVersionRaw, afterKeepAlive, hnot] using h5
    · simpa [EZB.GetFirmwareVersionRaw, afterKeepAlive, hnot] using h6
    · have h8 := byte_remainder_iff r (by omega) h
      rw [← he] at h8
      simp only [EZB.GetFirmwareVersionRaw, afterKeepAlive, hnot, if_false]
      rw [← h8]
      exact_mod_cast h7
  · rw [← firmwareOf_eq_zero r]
    simp

/-- Witness of C2 as amended: the response byte 33. -/
theorem C2_KeepAlive_firmware_double_witness :
    ((33 : Nat) ≤ 15 →
      (EZB.KeepAlive sampleConsts sampleConnected (wireOk 0 [33])).1.GetFirmwareVersionRaw
        = ((33 : Nat) : ℚ)) ∧
    (15 < (33 : Nat) → ∃ n e : Nat, 2 ^ 52 ≤ n ∧ n ≤ 2 ^ 53 ∧
        (2 : ℚ) ^ e ≤ ((33 : Nat) : ℚ) / 10 ∧ ((33 : Nat) : ℚ) / 10 < 2 ^ (e + 1) ∧
        (EZB.KeepAlive sampleConsts sampleConnected (wireOk 0 [33])).1.GetFirmwareVersionRaw
          = (n : ℚ) * 2 ^ e / 2 ^ 52 ∧
        |(EZB.KeepAlive sampleConsts sampleConnected (wireOk 0 [33])).1.GetFirmwareVersionRaw
          - ((33 : Nat) : ℚ) / 10| ≤ 2 ^ e / 2 ^ 53 ∧
        ((EZB.KeepAlive sampleConsts sampleConnected (wireOk 0 [33])).1.GetFirmwareVersionRaw
          = ((33 : Nat) : ℚ) / 10 ↔ 5 ∣ (33 : Nat))) ∧
    ∃ b : Bool, (EZB.KeepAlive sampleConsts sampleConnected (wireOk 0 [33])).2
        = Outcome.returned b ∧ (b = false ↔ (33 : Nat) = 0) :=
  C2_KeepAlive_firmware_double sampleConsts sampleConnected (wireOk 0 [33]) 33 (by decide) rfl
    rfl (Or.inr ⟨[], rfl⟩) (by decide)

/-- C3 (defect in the code): the claim asks that `SendCommand` fail with an
error whenever the opcode is Unknown or the channel is not connected.  The
throws at lines 179-182 leave the send mutex held (only the normal return
releases it), so the next such call waits at `pthread_mutex_lock` for ever and
throws nothing: on a connected object a first `SendCommand` with the Unknown
opcode throws "Unknown command" and leaves the mutex held, and a second one
never returns; the same holds for two calls on an object that is not
connected.  The blocked call makes no platform call and leaves the timestamp
as it was. -/
theorem C3_rejected_call_blocks_after_failed_call :
    (EZB.SendCommand sampleConsts sampleConnected 0 [] 0 0 (wireOk 0 [])).2
      = Outcome.threw (Exn.runtime_error "Unknown command") ∧
    (EZB.SendCommand sampleConsts sampleConnected 0 [] 0 0 (wireOk 0 [])).1.m_send_mutex = 1 ∧
    EZB.SendCommand sampleConsts
        (EZB.SendCommand sampleConsts sampleConnected 0 [] 0 0 (wireOk 0 [])).1
        0 [] 0 0 (wireOk 1 [])
      = ((EZB.SendCommand sampleConsts sampleConnected 0 [] 0 0 (wireOk 0 [])).1,
          Outcome.blocked) ∧
    (EZB.SendCommand sampleConsts sampleNotConnected 85 [] 0 0 (wireOk 0 [])).2
      = Outcome.threw (Exn.runtime_error "Not connected") ∧
    EZB.SendCommand sampleConsts
        (EZB.SendCommand sampleConsts sampleNotConnected 85 [] 0 0 (wireOk 0 [])).1
        85 [] 0 0 (wireOk 1 [])
      = ((EZB.SendCommand sampleConsts sampleNotConnected 85 [] 0 0 (wireOk 0 [])).1,
          Outcome.blocked) := by
  refine ⟨rfl, rfl, rfl, rfl, rfl⟩

/-- C4 (defect in the code): the claim asks `IsConnected()` to be false after
`Disconnect` and after a `Connect` whose handshake failed.  `Connect` sets
`m_connected` before the handshake and nothing but the supervisor ever clears
it: after a successful `Connect` followed by `Disconnect`, and after a
`Connect` that threw "Controller not responding", `IsConnected()` is true.  On a
fresh instance it is false. -/
theorem C4_IsConnected_stays_true :
    (EZB.construct 0).IsConnected = false ∧
    (EZB.Connect sampleConsts (EZB.construct 0) (some "AA:BB:CC:DD:EE:FF")
        (connectEnv [9])).2 = Outcome.returned () ∧
    (EZB.Disconnect (EZB.Connect sampleConsts (EZB.construct 0) (some "AA:BB:CC:DD:EE:FF")
        (connectEnv [9])).1).m_socket = 0 ∧
    (EZB.Disconnect (EZB.Connect sampleConsts (EZB.construct 0) (some "AA:BB:CC:DD:EE:FF")
        (connectEnv [9])).1).IsConnected = true ∧
    (EZB.Connect sampleConsts (EZB.construct 0) (some "AA:BB:CC:DD:EE:FF")
        (connectEnv [0])).2 = Outcome.threw (Exn.runtime_error "Controller not responding") ∧
    (EZB.Connect sampleConsts (EZB.construct 0) (some "AA:BB:CC:DD:EE:FF")
        (connectEnv [0])).1.IsConnected = true := by
  refine ⟨rfl, rfl, rfl, rfl, rfl, rfl⟩

/-- C5: `Connect` on an object whose connected flag is already true throws
"Already connected" and returns the object unchanged in every field (flag,
socket, stored address, firmware, last-activity time) with no platform call
added to the trace, so no socket is opened. -/
theorem C5_Connect_already_connected (c : Consts) (s : EZB) (mac_address : Option String)
    (env : ConnectEnv) (hc : s.m_connected = true) :
    EZB.Connect c s mac_address env
      = (s, Outcome.threw (Exn.runtime_error "Already connected")) := by
  simp [EZB.Connect, hc]

/-- Witness of C5: a second `Connect` on a connected object. -/
theorem C5_Connect_already_connected_witness :
    EZB.Connect sampleConsts sampleConnected (some "00:11:22:33:44:55") (connectEnv [9])
      = (sampleConnected, Outcome.threw (Exn.runtime_error "Already connected")) :=
  C5_Connect_already_connected sampleConsts sampleConnected (some "00:11:22:33:44:55")
    (connectEnv [9]) rfl

/-- C6 fails as stated: on a connected channel with the valid opcode 85 and one
expected response byte, a transport whose write and read both fail makes
`SendCommand` return normally, with the zeroed one-byte buffer. -/
theorem C6_failed_transport_returns_normally :
    wireFail.send_ret < 0 ∧ wireFail.recv_ret < 0 ∧
    sampleConnected.m_connected = true ∧ 85 ≠ sampleConsts.Unknown ∧
    (EZB.SendCommand sampleConsts sampleConnected 85 [] 0 1 wireFail).2
      = Outcome.returned (some [0]) := by
  refine ⟨by decide, by decide, rfl, by decide, rfl⟩

/-- C6 as amended: on a connected channel with a valid opcode and a non-negative
expected length, on a call that acquires the send mutex (so that the write
takes place), a failed write, or a failed or short read, is not reported:
`SendCommand` returns normally, with no buffer when no response is expected and
otherwise with a buffer of the requested length that holds the bytes delivered
followed by zeros. -/
theorem C6_transport_failures_ignored (c : Consts) (s : EZB) (command : Nat)
    (args : List Nat) (num_args : Nat) (n : Int) (w : Wire)
    (hfree : s.m_send_mutex = 0)
    (hcmd : command ≠ c.Unknown) (hc : s.m_connected = true) (hn : 0 ≤ n)
    (hfail : w.send_ret < 0 ∨ (0 < n ∧ (w.recv_ret < 0 ∨ (w.recv_data.length : Int) < n))) :
    (EZB.SendCommand c s command args num_args n w).2
        = Outcome.returned (if n = 0 then none else some (retvalBuffer n w)) ∧
    (retvalBuffer n w).length = n.toNat ∧
    retvalBuffer n w
        = w.recv_data.take n.toNat ++ List.replicate (n.toNat - w.recv_data.length) 0 := by
  refine ⟨?_, ?_, ?_⟩
  · by_cases h0 : n = 0
    · subst h0
      rw [SendCommand_zero c s command args num_args w hfree hcmd hc]
      simp
    · rw [SendCommand_pos c s command args num_args n w hfree hcmd hc (by omega)]
      simp [h0]
  · simp only [retvalBuffer, recvInto, List.length_append, List.length_take,
      List.length_drop, List.length_replicate]
    omega
  · simp [retvalBuffer, recvInto]

/-- Witness of C6 as amended: both transport calls fail, two bytes expected. -/
theorem C6_transport_failures_ignored_witness :
    (EZB.SendCommand sampleConsts sampleConnected 85 [] 0 2 wireFail).2
        = Outcome.returned (if (2 : Int) = 0 then none else some (retvalBuffer 2 wireFail)) ∧
    (retvalBuffer 2 wireFail).length = (2 : Int).toNat ∧
    retvalBuffer 2 wireFail
        = wireFail.recv_data.take (2 : Int).toNat
            ++ List.replicate ((2 : Int).toNat - wireFail.recv_data.length) 0 :=
  C6_transport_failures_ignored sampleConsts sampleConnected 85 [] 0 2 wireFail
    rfl (by decide) rfl (by decide) (Or.inl (by decide))

/-- C7: on a supervisor wake-up with the exiting flag clear and the liveness
check due, on a connected object whose exchange takes place, let `r` be the
response byte the transport delivers (0 when the read delivers nothing and the
zeroed buffer is left as it is).  If `r = 0` the loop ends with the connected
flag false, having made exactly one exchange whatever wake-ups would follow.
If `r` is not 0 the connected flag is unchanged, the stored firmware is the
scaled value of `r` (`r` for `r ≤ 15`, the double `(double)r / 10` otherwise),
and the loop goes on with the remaining wake-ups after sleeping. -/
theorem C7_supervisor_wakeup (c : Consts) (s : EZB) (wk : Wake) (rest : List Wake) (r : Nat)
    (hp : c.Ping ≠ c.Unknown) (hc : s.m_connected = true) (hfree : s.m_send_mutex = 0)
    (hexit : s.m_exit = false) (hdue : EZB.checkDue c s wk.time_now = true)
    (hr : wk.wire.recv_data = [] ∧ r = 0 ∨ ∃ tail, wk.wire.recv_data = r :: tail) :
    (r = 0 →
      (EZB.ConnectionCheck c s (wk :: rest)).2 = some (Outcome.returned ()) ∧
      (EZB.ConnectionCheck c s (wk :: rest)).1.m_connected = false ∧
      (EZB.ConnectionCheck c s (wk :: rest)).1.trace
        = s.trace ++ [Event.lock, Event.send s.m_socket [c.Ping],
            Event.recv s.m_socket 1, Event.unlock]) ∧
    (r ≠ 0 →
      (EZB.KeepAlive c s wk.wire).1.m_connected = s.m_connected ∧
      (EZB.KeepAlive c s wk.wire).1.m_firmware
        = (if r ≤ 15 then (r : ℚ) else doubleDiv r 10) ∧
      (EZB.KeepAlive c s wk.wire).1.trace
        = s.trace ++ [Event.lock, Event.send s.m_socket [c.Ping],
            Event.recv s.m_socket 1, Event.unlock] ∧
      EZB.ConnectionCheck c s (wk :: rest)
        = EZB.ConnectionCheck c
            ((EZB.KeepAlive c s wk.wire).1.usleep (c.KEEP_ALIVE_INTERVAL * 1000)) rest) := by
  have hka := KeepAlive_free c s wk.wire r hp hc hfree hr
  refine ⟨?_, ?_⟩
  · intro h0
    have hf : firmwareOf r = 0 := (firmwareOf_eq_zero r).mpr h0
    simp [EZB.ConnectionCheck, hexit, hdue, hka, hf, afterKeepAlive]
  · intro h0
    have hf : firmwareOf r ≠ 0 := fun h => h0 ((firmwareOf_eq_zero r).mp h)
    refine ⟨?_, ?_, ?_, ?_⟩
    · simp [hka, afterKeepAlive]
    · simp [hka, afterKeepAlive]
    · simp [hka, afterKeepAlive]
    · simp [EZB.ConnectionCheck, hexit, hdue, hka, hf]

/-- Witness of C7: on the sample connected object, a due wake-up on which the
peer answers 33 (the loop goes on, firmware `(double)33 / 10`), and one on which
the read delivers nothing (the loop ends, flag cleared). -/
theorem C7_supervisor_wakeup_witness :
    ((EZB.KeepAlive sampleConsts sampleConnected (wakeAt 100 [33]).wire).1.m_connected
        = sampleConnected.m_connected ∧
      (EZB.KeepAlive sampleConsts sampleConnected (wakeAt 100 [33]).wire).1.m_firmware
        = (if (33 : Nat) ≤ 15 then ((33 : Nat) : ℚ) else doubleDiv 33 10) ∧
      (EZB.KeepAlive sampleConsts sampleConnected (wakeAt 100 [33]).wire).1.trace
        = sampleConnected.trace ++ [Event.lock, Event.send sampleConnected.m_socket
            [sampleConsts.Ping], Event.recv sampleConnected.m_socket 1, Event.unlock] ∧
      EZB.ConnectionCheck sampleConsts sampleConnected (wakeAt 100 [33] :: [wakeAt 200 [9]])
        = EZB.ConnectionCheck sampleConsts
            ((EZB.KeepAlive sampleConsts sampleConnected (wakeAt 100 [33]).wire).1.usleep
              (sampleConsts.KEEP_ALIVE_INTERVAL * 1000)) [wakeAt 200 [9]]) ∧
    ((EZB.ConnectionCheck sampleConsts sampleConnected (wakeAt 100 [] :: [wakeAt 200 [9]])).2
        = some (Outcome.returned ()) ∧
      (EZB.ConnectionCheck sampleConsts sampleConnected
        (wakeAt 100 [] :: [wakeAt 200 [9]])).1.m_connected = false ∧
      (EZB.ConnectionCheck sampleConsts sampleConnected
        (wakeAt 100 [] :: [wakeAt 200 [9]])).1.trace
        = sampleConnected.trace ++ [Event.lock, Event.send sampleConnected.m_socket
            [sampleConsts.Ping], Event.recv sampleConnected.m_socket 1, Event.unlock]) :=
  ⟨(C7_supervisor_wakeup sampleConsts sampleConnected (wakeAt 100 [33]) [wakeAt 200 [9]] 33
      (by decide) rfl rfl rfl (by decide) (Or.inr ⟨[], rfl⟩)).2 (by decide),
    (C7_supervisor_wakeup sampleConsts sampleConnected (wakeAt 100 []) [wakeAt 200 [9]] 0
      (by decide) rfl rfl rfl (by decide) (Or.inl ⟨rfl, rfl⟩)).1 rfl⟩

/-- C8 (defect in the code): the claim asks that the timestamp `SendCommand`
stores and the time `ConnectionCheck` compares it with be in the same unit on
the same clock.  `SendCommand` stores milliseconds (`tv_sec * 1000 + tv_nsec /
1000000`), `ConnectionCheck` adds the interval in seconds and compares with
`time(NULL)` in seconds; the constructor stores `time(NULL)` seconds.  Even
when both clocks read the same instant: after a command sent at second 1000 the
stored value is 1000000, and at second `1000 + KEEP_ALIVE_INTERVAL / 1000 + 1`,
when more than the interval has elapsed, the due-test is false, while on the
timestamp the constructor stores at second 1000 it is true. -/
theorem C8_timestamp_units_differ (c : Consts) :
    (EZB.SendCommand c sampleConnected (c.Unknown + 1) [] 0 0 (wireOk 1000 [])).1.m_lastcommand_time
      = 1000000 ∧
    c.KEEP_ALIVE_INTERVAL
      < ((1000 + c.KEEP_ALIVE_INTERVAL.tdiv 1000 + 1) - 1000) * 1000 ∧
    EZB.checkDue c
        (EZB.SendCommand c sampleConnected (c.Unknown + 1) [] 0 0 (wireOk 1000 [])).1
        (1000 + c.KEEP_ALIVE_INTERVAL.tdiv 1000 + 1) = false ∧
    EZB.checkDue c (EZB.construct 1000) (1000 + c.KEEP_ALIVE_INTERVAL.tdiv 1000 + 1) = true := by
  have hs : (EZB.SendCommand c sampleConnected (c.Unknown + 1) [] 0 0
      (wireOk 1000 [])).1.m_lastcommand_time = 1000000 := by
    rw [SendCommand_zero c sampleConnected (c.Unknown + 1) [] 0 (wireOk 1000 []) rfl
      (by omega) rfl]
    simp [EZB.pthread_mutex_unlock, afterWrite, wireOk]
  refine ⟨hs, ?_, ?_, ?_⟩
  · have := tdiv_thousand_lt c.KEEP_ALIVE_INTERVAL
    omega
  · simp only [EZB.checkDue, hs, decide_eq_false_iff_not]
    omega
  · simp only [EZB.checkDue, EZB.construct, decide_eq_true_eq]
    omega

/-- C9: a `SendCommand` call that reaches the transport (send mutex acquired,
valid opcode, connected object) makes these platform calls, in this order and
no others: the lock acquisition, the frame write, the response read when a
positive length is expected, and then the lock release; so the release follows
the read, or the write when nothing is expected.  For a negative expected
length the call stops after the write, the lock never released. -/
theorem C9_SendCommand_critical_section (c : Consts) (s : EZB) (command : Nat)
    (args : List Nat) (num_args : Nat) (n : Int) (w : Wire)
    (hfree : s.m_send_mutex = 0)
    (hcmd : command ≠ c.Unknown) (hc : s.m_connected = true) :
    (EZB.SendCommand c s command args num_args n w).1.trace
      = s.trace ++ (Event.lock :: Event.send s.m_socket (bytestosend command args num_args) ::
          (if 0 < n then [Event.recv s.m_socket n, Event.unlock]
            else if n = 0 then [Event.unlock] else [])) := by
  rcases lt_trichotomy n 0 with hn | hn | hn
  · rw [SendCommand_neg c s command args num_args n w hfree hcmd hc hn]
    have h1 : ¬ 0 < n := by omega
    have h2 : n ≠ 0 := by omega
    simp [afterWrite, h1, h2]
  · subst hn
    rw [SendCommand_zero c s command args num_args w hfree hcmd hc]
    simp [afterWrite, EZB.pthread_mutex_unlock]
  · rw [SendCommand_pos c s command args num_args n w hfree hcmd hc hn]
    simp [afterWrite, EZB.pthread_mutex_unlock, EZB.emit, hn]

/-- Witness of C9: the liveness opcode with one expected byte. -/
theorem C9_SendCommand_critical_section_witness :
    (EZB.SendCommand sampleConsts sampleConnected 85 [] 0 1 (wireOk 0 [9])).1.trace
      = sampleConnected.trace ++ (Event.lock ::
          Event.send sampleConnected.m_socket (bytestosend 85 [] 0) ::
          (if (0 : Int) < 1 then [Event.recv sampleConnected.m_socket 1, Event.unlock]
            else if (1 : Int) = 0 then [Event.unlock] else [])) :=
  C9_SendCommand_critical_section sampleConsts sampleConnected 85 [] 0 1 (wireOk 0 [9])
    rfl (by decide) rfl

/-- C10: whenever `SendCommand` throws "Unknown command" or "Not connected", the
lock it acquired on entry has not been released: the only platform call made is
the acquisition, and the mutex, free before the call, is held after it, so its
state differs from the state before the call. -/
theorem C10_lock_held_on_error (c : Consts) (s : EZB) (command : Nat) (args : List Nat)
    (num_args : Nat) (n : Int) (w : Wire)
    (h : (EZB.SendCommand c s command args num_args n w).2
            = Outcome.threw (Exn.runtime_error "Unknown command") ∨
         (EZB.SendCommand c s command args num_args n w).2
            = Outcome.threw (Exn.runtime_error "Not connected")) :
    (EZB.SendCommand c s command args num_args n w).1.trace = s.trace ++ [Event.lock] ∧
    (EZB.SendCommand c s command args num_args n w).1.m_send_mutex = s.m_send_mutex + 1 ∧
    (EZB.SendCommand c s command args num_args n w).1.m_send_mutex ≠ s.m_send_mutex := by
  by_cases hfree : s.m_send_mutex = 0
  · by_cases hu : command = c.Unknown
    · rw [SendCommand_unknown c s command args num_args n w hfree hu]
      simp
    · cases hc : s.m_connected with
      | false =>
        rw [SendCommand_not_connected c s command args num_args n w hfree hu hc]
        simp
      | true =>
        exfalso
        rcases lt_trichotomy n 0 with hn | hn | hn
        · rw [SendCommand_neg c s command args num_args n w hfree hu hc hn] at h
          simp at h
        · subst hn
          rw [SendCommand_zero c s command args num_args w hfree hu hc] at h
          simp at h
        · rw [SendCommand_pos c s command args num_args n w hfree hu hc hn] at h
          simp at h
  · exfalso
    rw [SendCommand_blocked c s command args num_args n w hfree] at h
    simp at h

/-- Witness of C10: a command sent on an object that is not connected. -/
theorem C10_lock_held_on_error_witness :
    (EZB.SendCommand sampleConsts (EZB.construct 0) 85 [] 0 0 (wireOk 0 [])).1.trace
      = (EZB.construct 0).trace ++ [Event.lock] ∧
    (EZB.SendCommand sampleConsts (EZB.construct 0) 85 [] 0 0 (wireOk 0 [])).1.m_send_mutex
      = (EZB.construct 0).m_send_mutex + 1 ∧
    (EZB.SendCommand sampleConsts (EZB.construct 0) 85 [] 0 0 (wireOk 0 [])).1.m_send_mutex
      ≠ (EZB.construct 0).m_send_mutex :=
  C10_lock_held_on_error sampleConsts (EZB.construct 0) 85 [] 0 0 (wireOk 0 []) (Or.inr rfl)
